import Mathlib

/-
Verification of the Cumulative Risk Index (CRI) engine of a farm-advisory
backend.  The JavaScript source is embedded shallowly: JS numbers are
modelled as exact rationals (ℚ); the special JS values `undefined`, `null`
and `NaN` are modelled by the inductive type `JsVal`; `Math.random()` draws
are passed as explicit rational parameters.  Floating-point rounding error
is not modelled: all arithmetic is exact.
-/

namespace BlightCRI

/-- Risk levels produced by the CRI calculator (source strings
"Low"/"Medium"/"High"/"Critical"). -/
inductive Risk where
  | Low
  | Medium
  | High
  | Critical
deriving DecidableEq

/-- Blight classification produced by the CRI calculator (source strings
"Healthy"/"Early Blight"/"Late Blight"). -/
inductive Blight where
  | Healthy
  | EarlyBlight
  | LateBlight
deriving DecidableEq

/-- A JavaScript value as it can appear in a reading field: `undefined`,
`null`, `NaN`, or an ordinary (finite) number modelled as a rational. -/
inductive JsVal where
  | undef
  | jnull
  | nan
  | num (q : ℚ)
deriving DecidableEq

/-- JS `ToNumber` coercion restricted to the values we model:
`undefined` and `NaN` give `NaN` (represented by `none`), `null` gives 0,
and a number gives itself. -/
def jsToNumber : JsVal → Option ℚ
  | JsVal.undef => none
  | JsVal.jnull => some 0
  | JsVal.nan => none
  | JsVal.num q => some q

/-- JS truthiness of a value: `undefined`, `null`, `NaN` and 0 are falsy. -/
def jsTruthy : JsVal → Bool
  | JsVal.undef => false
  | JsVal.jnull => false
  | JsVal.nan => false
  | JsVal.num q => decide (q ≠ 0)

/-- JS `a || b`: `a` when truthy, else `b`. -/
def jsOr (a b : JsVal) : JsVal :=
  if jsTruthy a then a else b

/-- `Math.min` on actual numbers (NaN operands are handled separately at
the call sites that can receive them). -/
def jsMin (a b : ℚ) : ℚ :=
  if a ≤ b then a else b

/-- `Math.max` on actual numbers. -/
def jsMax (a b : ℚ) : ℚ :=
  if a ≤ b then b else a

theorem jsMin_eq (a b : ℚ) : jsMin a b = min a b := by
  simp [jsMin, min_def]

theorem jsMax_eq (a b : ℚ) : jsMax a b = max a b := by
  simp [jsMax, max_def]

/-- `parseFloat(x.toFixed(2))`: rounding to two decimals.  For the positive
values arising here, JS `toFixed` rounds half away from zero, which agrees
with `round` (half up). -/
def round2 (q : ℚ) : ℚ :=
  ((round (q * 100) : ℤ) : ℚ) / 100

/-
Embedding of `calculateCRI` (src/utils/dataValidator.js, lines 49-167) for
inputs whose soil moisture is present as a number.  The guard at lines
52-54 (estimating a missing soil moisture from rainfall) is modelled with
`estimateSoilMoisture` below; the claims about `calculateCRI` concern the
all-numeric path.
-/

/-- Temperature factor (dataValidator.js lines 70-83). -/
def tempFactor (t : ℚ) : ℚ :=
  if t < 10 ∨ t > 29 then 0
  else if 10 ≤ t ∧ t ≤ 20 then 25 * (1 - (t - 10) / 10)
  else if 24 ≤ t ∧ t ≤ 29 then -25 * (1 - (29 - t) / 5)
  else 0

/-- Humidity factor (dataValidator.js lines 89-99). -/
def humidityFactor (h : ℚ) : ℚ :=
  if h > 80 then 30 * ((h - 80) / 20)
  else if h < 60 then -20 * ((60 - h) / 60)
  else 0

/-- Soil-moisture factor (dataValidator.js lines 105-115). -/
def soilFactor (s : ℚ) : ℚ :=
  if s > 60 then 25 * ((s - 60) / 40)
  else if s < 40 then -25 * ((40 - s) / 40)
  else 0

/-- The weighted factor sum added to the baseline 50
(dataValidator.js lines 118-121, weights at lines 57-61). -/
def criWeightedSum (t h s : ℚ) : ℚ :=
  tempFactor t * (0.4 : ℚ) + humidityFactor h * (0.4 : ℚ) + soilFactor s * (0.2 : ℚ)

/-- The clamped internal score `Math.min(Math.max(cri, 1), 100)`
(dataValidator.js line 124). -/
def criClamped (t h s : ℚ) : ℚ :=
  jsMin (jsMax (50 + criWeightedSum t h s) 1) 100

/-- Result record of `calculateCRI`. -/
structure CRIResult where
  cri : ℚ
  riskLevel : Risk
  blightType : Blight
deriving DecidableEq

/-- Embedding of `calculateCRI` (dataValidator.js lines 49-167): the risk
level and blight type are decided from the clamped but UNROUNDED score
(lines 126-160); the returned `cri` field is that score rounded to two
decimals (line 163).  The `rainfall` argument is unused on this path, as in
the source. -/
def calculateCRI (t h rainfall s : ℚ) : CRIResult :=
  if criClamped t h s < 50 then
    { cri := round2 (criClamped t h s)
      riskLevel :=
        if criClamped t h s ≥ 40 then Risk.Low
        else if criClamped t h s ≥ 30 then Risk.Medium
        else if criClamped t h s ≥ 20 then Risk.High
        else Risk.Critical
      blightType := Blight.EarlyBlight }
  else if criClamped t h s > 50 then
    { cri := round2 (criClamped t h s)
      riskLevel :=
        if criClamped t h s ≤ 60 then Risk.Low
        else if criClamped t h s ≤ 70 then Risk.Medium
        else if criClamped t h s ≤ 80 then Risk.High
        else Risk.Critical
      blightType := Blight.LateBlight }
  else
    { cri := round2 (criClamped t h s)
      riskLevel := Risk.Low
      blightType := Blight.Healthy }

/-- Specification-side bidirectional banding, written from the words of the
spec (section 4.3): applied to a score, yields the blight type and risk
level the banding prescribes. -/
def specBanding (c : ℚ) : Blight × Risk :=
  if c < 50 then
    (Blight.EarlyBlight,
      if c ≥ 40 then Risk.Low
      else if c ≥ 30 then Risk.Medium
      else if c ≥ 20 then Risk.High
      else Risk.Critical)
  else if c > 50 then
    (Blight.LateBlight,
      if c ≤ 60 then Risk.Low
      else if c ≤ 70 then Risk.Medium
      else if c ≤ 80 then Risk.High
      else Risk.Critical)
  else
    (Blight.Healthy, Risk.Low)

/-- Specification-side final-score formula, written from the words of the
spec (section 4.3): clamp the baseline-plus-weighted-sum to [1,100] and
round to two decimals. -/
def specCriFormula (t h s : ℚ) : ℚ :=
  round2 (min (max (50 + (tempFactor t * (0.4 : ℚ) + humidityFactor h * (0.4 : ℚ) + soilFactor s * (0.2 : ℚ))) 1) 100)

theorem calculateCRI_cri (t h r s : ℚ) :
    (calculateCRI t h r s).cri = round2 (criClamped t h s) := by
  unfold calculateCRI
  split_ifs <;> rfl

theorem round2_mono {a b : ℚ} (hab : a ≤ b) : round2 a ≤ round2 b := by
  unfold round2
  have h : round (a * 100) ≤ round (b * 100) := by
    rw [round_eq, round_eq]
    exact Int.floor_mono (by linarith)
  gcongr

theorem criClamped_bounds (t h s : ℚ) :
    1 ≤ criClamped t h s ∧ criClamped t h s ≤ 100 := by
  unfold criClamped
  rw [jsMin_eq, jsMax_eq]
  constructor
  · exact le_min (le_max_right _ 1) (by norm_num)
  · exact min_le_right _ 100

/-- Claim C2 (confirmed): for every input (all inputs are exact rationals,
hence finite), the returned `cri` equals the spec formula — 50 plus the
weighted sum of the temperature (0.4), humidity (0.4) and soil-moisture
(0.2) factors, clamped to [1,100] and rounded to two decimals — and lies in
the closed interval [1,100]. -/
theorem cri_formula_and_range (t h r s : ℚ) :
    (calculateCRI t h r s).cri = specCriFormula t h s ∧
    1 ≤ (calculateCRI t h r s).cri ∧ (calculateCRI t h r s).cri ≤ 100 := by
  have hform : (calculateCRI t h r s).cri = round2 (criClamped t h s) :=
    calculateCRI_cri t h r s
  have hspec : specCriFormula t h s = round2 (criClamped t h s) := by
    unfold specCriFormula criClamped criWeightedSum
    rw [jsMin_eq, jsMax_eq]
  obtain ⟨hlo, hhi⟩ := criClamped_bounds t h s
  have h1 : round2 1 = 1 := by norm_num [round2, round_eq]
  have h2 : round2 100 = 100 := by norm_num [round2, round_eq]
  refine ⟨hform.trans hspec.symm, ?_, ?_⟩
  · rw [hform]
    calc (1 : ℚ) = round2 1 := h1.symm
    _ ≤ round2 (criClamped t h s) := round2_mono hlo
  · rw [hform]
    calc round2 (criClamped t h s) ≤ round2 100 := round2_mono hhi
    _ = 100 := h2

/-- Claim C1 (amended, proved): the classification (blight type and risk
level) follows the bidirectional banding applied to the clamped but
UNROUNDED internal score, with exactly the thresholds of the claim; the
returned `cri` field is that score rounded to two decimals afterwards. -/
theorem classification_follows_banding_of_unrounded_score (t h r s : ℚ) :
    ((calculateCRI t h r s).blightType, (calculateCRI t h r s).riskLevel) =
      specBanding (criClamped t h s) := by
  unfold calculateCRI specBanding
  split_ifs <;> rfl

/-- Claim C1 (counterexample): at temperature 22, humidity 59.999,
rainfall 0, soil moisture 50, the unrounded score is 50 − 1/7500, so the
returned `cri` rounds to exactly 50 while the classification is
Early Blight / Low — contradicting the claim that a returned cri of 50
always comes with blight type "Healthy". -/
theorem returned_cri_fifty_with_blight_label :
    (calculateCRI 22 (59999/1000) 0 50).cri = 50 ∧
    (calculateCRI 22 (59999/1000) 0 50).blightType = Blight.EarlyBlight ∧
    (calculateCRI 22 (59999/1000) 0 50).riskLevel = Risk.Low ∧
    Blight.EarlyBlight ≠ Blight.Healthy := by
  refine ⟨?_, ?_, ?_, by decide⟩ <;>
    norm_num [calculateCRI, criClamped, criWeightedSum, tempFactor,
      humidityFactor, soilFactor, jsMin, jsMax, round2, round_eq]

/-- Claim C3 (amended, proved): the clamped score equals 50 exactly when
the weighted sum of the three factors is zero; individual factors can be
non-zero and cancel, so a non-zero factor does not imply a score different
from 50. -/
theorem cri_eq_fifty_iff_weighted_sum_zero (t h s : ℚ) :
    criClamped t h s = 50 ↔ criWeightedSum t h s = 0 := by
  unfold criClamped jsMin jsMax
  split_ifs <;> constructor <;> intro hh <;> linarith

/-- Claim C3 (counterexample): at temperature 10, humidity 0, soil moisture
24, all three factors are non-zero (25, −20 and −10) yet they cancel in the
weighted sum, so the calculator returns cri = 50 with classification
Healthy — contradicting the claim that any non-zero factor forces
cri ≠ 50. -/
theorem cri_fifty_with_nonzero_factors :
    (calculateCRI 10 0 0 24).cri = 50 ∧
    (calculateCRI 10 0 0 24).blightType = Blight.Healthy ∧
    tempFactor 10 ≠ 0 ∧ humidityFactor 0 ≠ 0 ∧ soilFactor 24 ≠ 0 := by
  refine ⟨?_, ?_, ?_, ?_, ?_⟩ <;>
    norm_num [calculateCRI, criClamped, criWeightedSum, tempFactor,
      humidityFactor, soilFactor, jsMin, jsMax, round2, round_eq]

/-
Embedding of `estimateSoilMoisture` (src/utils/dataServices.js lines
92-101).  The two `Math.random()` draws (each in [0,1) at runtime) are
passed as the explicit parameters `r1` and `r2`.  In JS, a NaN (or
undefined) rainfall propagates through `*`, `+`, `Math.max` and `Math.min`
to a NaN result; a `null` rainfall coerces to 0.  That propagation is
captured by matching on the numeric coercion of the argument.
-/

def estimateSoilMoisture (rainfall : JsVal) (r1 r2 : ℚ) : JsVal :=
  match jsToNumber rainfall with
  | none => JsVal.nan
  | some q => JsVal.num (jsMin 100 (jsMax 0 ((40 + r1 * 10) + q * (2 + r2 * 3))))

/-- Raw combined reading as passed to the validator: each field can be
`undefined`, `null`, `NaN` or a number. -/
structure RawReading where
  temperature : JsVal
  humidity : JsVal
  rainfall : JsVal
  soilMoisture : JsVal
deriving DecidableEq

/-- Result shape of `validateEnvironmentalData`. -/
structure ValidationResult where
  cleanedData : RawReading
  isValid : Bool
  errors : List String
deriving DecidableEq

/-- The test `v === undefined || v === null` used by the validator. -/
def jsIsMissing : JsVal → Bool
  | JsVal.undef => true
  | JsVal.jnull => true
  | _ => false

/-- The error list accumulated by `validateEnvironmentalData`
(dataValidator.js lines 13-35), in source order. -/
def validationErrors (data : RawReading) : List String :=
  (if jsIsMissing data.temperature then ["Temperature data missing"] else []) ++
  (if jsIsMissing data.humidity then ["Humidity data missing"] else []) ++
  (if jsIsMissing data.soilMoisture then ["Soil moisture data missing, will use estimate"] else [])

/-- Embedding of `validateEnvironmentalData` (dataValidator.js lines 8-42).
Note the source tests only `=== undefined || === null` on each field: NaN
values pass through untouched.  Rainfall is never validated; a missing soil
moisture is estimated from `cleanedData.rainfall || 0`. -/
def validateEnvironmentalData (data : RawReading) (r1 r2 : ℚ) : ValidationResult :=
  { cleanedData :=
      { temperature := if jsIsMissing data.temperature then JsVal.num 22 else data.temperature
        humidity := if jsIsMissing data.humidity then JsVal.num 70 else data.humidity
        rainfall := data.rainfall
        soilMoisture :=
          if jsIsMissing data.soilMoisture then
            estimateSoilMoisture (jsOr data.rainfall (JsVal.num 0)) r1 r2
          else data.soilMoisture }
    isValid := (validationErrors data).isEmpty
    errors := validationErrors data }

/-- Claim C4 (amended, proved): the validator substitutes the neutral
default 22 and records an error exactly for a temperature that is
`undefined` or `null` (not for NaN); in that case the error list is
non-empty and `isValid` is false. -/
theorem validator_defaults_on_missing_temperature
    (d : RawReading) (r1 r2 : ℚ) (h : jsIsMissing d.temperature = true) :
    (validateEnvironmentalData d r1 r2).cleanedData.temperature = JsVal.num 22 ∧
    (validateEnvironmentalData d r1 r2).errors ≠ [] ∧
    (validateEnvironmentalData d r1 r2).isValid = false := by
  refine ⟨by simp [validateEnvironmentalData, h], ?_, ?_⟩ <;>
    simp [validateEnvironmentalData, validationErrors, h]

/-- Witness for C4's amended theorem at a concrete reading whose
temperature is `undefined`. -/
theorem validator_defaults_on_missing_temperature_witness :
    (validateEnvironmentalData
        { temperature := JsVal.undef, humidity := JsVal.num 70,
          rainfall := JsVal.num 0, soilMoisture := JsVal.num 50 } 0 0).cleanedData.temperature
      = JsVal.num 22 ∧
    (validateEnvironmentalData
        { temperature := JsVal.undef, humidity := JsVal.num 70,
          rainfall := JsVal.num 0, soilMoisture := JsVal.num 50 } 0 0).errors ≠ [] ∧
    (validateEnvironmentalData
        { temperature := JsVal.undef, humidity := JsVal.num 70,
          rainfall := JsVal.num 0, soilMoisture := JsVal.num 50 } 0 0).isValid = false :=
  validator_defaults_on_missing_temperature
    { temperature := JsVal.undef, humidity := JsVal.num 70,
      rainfall := JsVal.num 0, soilMoisture := JsVal.num 50 } 0 0 rfl

/-- Claim C4 (counterexample): on the spec's own test input
`{temperature: NaN, humidity: 70, rainfall: 0}` (soil moisture absent), the
cleaned temperature is NaN, not 22 — refuting the claim that every
non-finite temperature is replaced by 22.  The other two parts of the
claim do hold here: errors are non-empty and the estimated soil moisture is
the finite value 40 (jitter draws fixed at 0). -/
theorem nan_temperature_passes_through :
    (validateEnvironmentalData
        { temperature := JsVal.nan, humidity := JsVal.num 70,
          rainfall := JsVal.num 0, soilMoisture := JsVal.undef } 0 0).cleanedData.temperature
      = JsVal.nan ∧
    JsVal.nan ≠ JsVal.num 22 ∧
    (validateEnvironmentalData
        { temperature := JsVal.nan, humidity := JsVal.num 70,
          rainfall := JsVal.num 0, soilMoisture := JsVal.undef } 0 0).errors ≠ [] ∧
    (validateEnvironmentalData
        { temperature := JsVal.nan, humidity := JsVal.num 70,
          rainfall := JsVal.num 0, soilMoisture := JsVal.undef } 0 0).cleanedData.soilMoisture
      = JsVal.num 40 := by
  refine ⟨by simp [validateEnvironmentalData, jsIsMissing], by simp, ?_, ?_⟩
  · simp [validateEnvironmentalData, validationErrors, jsIsMissing]
  · norm_num [validateEnvironmentalData, jsIsMissing, estimateSoilMoisture,
      jsOr, jsTruthy, jsToNumber, jsMin, jsMax]

/-- Claim C5 (amended, proved): for every rainfall input that coerces to an
actual number (any finite number, or `null` which JS coerces to 0) and any
jitter draws, the estimator returns a number in [0,100].  NaN and
undefined inputs are NOT treated as 0 — they propagate (see the
counterexample); the coercion to 0 happens at call sites via
`rainfall || 0`, and there is no default of 50. -/
theorem estimator_bounds_on_numeric_input
    (v : JsVal) (r1 r2 q : ℚ) (h : jsToNumber v = some q) :
    ∃ m, estimateSoilMoisture v r1 r2 = JsVal.num m ∧ 0 ≤ m ∧ m ≤ 100 := by
  refine ⟨jsMin 100 (jsMax 0 ((40 + r1 * 10) + q * (2 + r2 * 3))), ?_, ?_, ?_⟩
  · unfold estimateSoilMoisture
    rw [h]
  · rw [jsMin_eq, jsMax_eq]
    exact le_min (by norm_num) (le_max_left 0 _)
  · rw [jsMin_eq]
    exact min_le_left 100 _

/-- Witness for C5's amended theorem at rainfall 0 with zero jitter. -/
theorem estimator_bounds_on_numeric_input_witness :
    ∃ m, estimateSoilMoisture (JsVal.num 0) 0 0 = JsVal.num m ∧ 0 ≤ m ∧ m ≤ 100 :=
  estimator_bounds_on_numeric_input (JsVal.num 0) 0 0 0 rfl

/-- Claim C5 (counterexample): a NaN rainfall input yields a NaN result —
the estimator neither treats NaN as 0 nor coerces invalid input to the
documented default 50. -/
theorem estimator_nan_input_gives_nan :
    estimateSoilMoisture JsVal.nan 0 0 = JsVal.nan ∧ JsVal.nan ≠ JsVal.num 50 := by
  exact ⟨rfl, by simp⟩

/-- Claim C6 (amended, proved): the estimator is deterministic only as a
function of the numeric value of its rainfall argument TOGETHER WITH the
two random jitter draws: two calls agree whenever the rainfall coerces to
the same number and the draws are the same. -/
theorem estimator_deterministic_given_jitter
    (v w : JsVal) (r1 r2 : ℚ) (h : jsToNumber v = jsToNumber w) :
    estimateSoilMoisture v r1 r2 = estimateSoilMoisture w r1 r2 := by
  unfold estimateSoilMoisture
  rw [h]

/-- Witness for C6's amended theorem: rainfall 0 and rainfall `null`
(which coerces to 0) give the same estimate under equal jitter. -/
theorem estimator_deterministic_given_jitter_witness :
    estimateSoilMoisture (JsVal.num 0) 0 0 = estimateSoilMoisture JsVal.jnull 0 0 :=
  estimator_deterministic_given_jitter (JsVal.num 0) JsVal.jnull 0 0 rfl

/-- Claim C6 (counterexample): two calls with the SAME rainfall input 0 but
different `Math.random()` draws return 40 and 45 respectively — the
estimator is not deterministic in its input alone. -/
theorem estimator_jitter_changes_output :
    estimateSoilMoisture (JsVal.num 0) 0 0 = JsVal.num 40 ∧
    estimateSoilMoisture (JsVal.num 0) (1/2) 0 = JsVal.num 45 ∧
    JsVal.num 40 ≠ JsVal.num 45 := by
  refine ⟨?_, ?_, by simp⟩ <;>
    norm_num [estimateSoilMoisture, jsToNumber, jsMin, jsMax]

/-
Embedding of the Daily Aggregator `addEnvironmentalReading`
(src/unnamed/part_003: create path lines 340-358, update path lines
294-319 / 626-651).  A reading field that is absent (`undefined`/`null` in
JS) is `none`.  On update, the source filters each metric with
`.filter(Boolean)`, which drops null/undefined AND zero values, before
averaging; rainfall is summed with `(r.rainfall || 0)`.  The CRI
recomputation invoked after each fold is `calculateCRI` above and is not
restated here.
-/

/-- A reading appended to a daily record (timestamp omitted). -/
structure Reading where
  temperature : Option ℚ
  humidity : Option ℚ
  rainfall : Option ℚ
  soilMoisture : Option ℚ
deriving DecidableEq

/-- The aggregated daily record state: the readings list and the four
aggregated metric fields (a freshly created record stores the first
reading's raw, possibly absent, metric values). -/
structure DailyRecord where
  readings : List Reading
  temperature : Option ℚ
  humidity : Option ℚ
  soilMoisture : Option ℚ
  rainfall : ℚ
deriving DecidableEq

/-- JS `Array.prototype.filter(Boolean)` over metric values: keeps only
values that are present and non-zero (null, undefined, NaN and 0 are all
falsy). -/
def filterBoolean (xs : List (Option ℚ)) : List ℚ :=
  xs.filterMap (fun o =>
    match o with
    | none => none
    | some q => if q = 0 then none else some q)

/-- Embedding of `calculateAverage` (part_003 lines 243-247): 0 for an
empty array, else the arithmetic mean. -/
def calculateAverage (xs : List ℚ) : ℚ :=
  if xs.isEmpty then 0 else xs.sum / (xs.length : ℚ)

/-- Create path of `addEnvironmentalReading` (part_003 lines 340-350):
the record is seeded with the first reading's raw values and
`reading.rainfall || 0`. -/
def createRecord (r : Reading) : DailyRecord :=
  { readings := [r]
    temperature := r.temperature
    humidity := r.humidity
    soilMoisture := r.soilMoisture
    rainfall := r.rainfall.getD 0 }

/-- Update path of `addEnvironmentalReading` (part_003 lines 294-319): the
new reading is appended, each metric average is recomputed over the
falsy-filtered values of ALL readings, and rainfall is recomputed as the
sum of `(r.rainfall || 0)` over all readings. -/
def updateRecord (rec : DailyRecord) (r : Reading) : DailyRecord :=
  { readings := rec.readings ++ [r]
    temperature := some (calculateAverage (filterBoolean ((rec.readings ++ [r]).map Reading.temperature)))
    humidity := some (calculateAverage (filterBoolean ((rec.readings ++ [r]).map Reading.humidity)))
    soilMoisture := some (calculateAverage (filterBoolean ((rec.readings ++ [r]).map Reading.soilMoisture)))
    rainfall := ((rec.readings ++ [r]).map (fun x => x.rainfall.getD 0)).sum }

/-- One call of `addEnvironmentalReading`: create the day's record if
absent, else fold the reading into the existing record. -/
def addEnvironmentalReading (existing : Option DailyRecord) (r : Reading) : DailyRecord :=
  match existing with
  | none => createRecord r
  | some rec => updateRecord rec r

/-- Folding a whole sequence of same-day readings through
`addEnvironmentalReading`, starting from no record. -/
def foldReadings (rs : List Reading) : Option DailyRecord :=
  rs.foldl (fun acc r => some (addEnvironmentalReading acc r)) none

/-- Specification-side mean, written from the words of the claim: the
arithmetic mean of the values ignoring ONLY null/missing entries. -/
def specMeanIgnoringNulls (xs : List (Option ℚ)) : ℚ :=
  calculateAverage (xs.filterMap id)

theorem foldl_updateRecord_readings (rest : List Reading) (init : DailyRecord) :
    (rest.foldl updateRecord init).readings = init.readings ++ rest := by
  induction rest generalizing init with
  | nil => simp
  | cons x xs ih =>
    rw [List.foldl_cons, ih]
    simp [updateRecord]

theorem foldReadings_eq_foldl (r : Reading) (rest : List Reading) :
    foldReadings (r :: rest) = some (rest.foldl updateRecord (createRecord r)) := by
  unfold foldReadings
  rw [List.foldl_cons]
  have step : ∀ (ys : List Reading) (rec : DailyRecord),
      ys.foldl (fun acc x => some (addEnvironmentalReading acc x)) (some rec) =
        some (ys.foldl updateRecord rec) := by
    intro ys
    induction ys with
    | nil => intro rec; simp
    | cons y ys ih =>
      intro rec
      rw [List.foldl_cons, List.foldl_cons]
      exact ih (updateRecord rec y)
  exact step rest (createRecord r)

/-- Claim C7 (amended, proved): folding at least two readings into one day
yields a record whose readings list is the full input sequence, whose
rainfall is the sum of the readings' rainfall values (absent treated as 0),
and whose temperature, humidity and soil moisture are the arithmetic mean
of the readings' values after dropping the FALSY entries — absent values
and zero values alike (`.filter(Boolean)`), not only null/missing ones.
(A single-reading day keeps the first reading's raw values.) -/
theorem fold_readings_closed_form (r : Reading) (rest : List Reading) (h : rest ≠ []) :
    foldReadings (r :: rest) = some
      { readings := r :: rest
        temperature := some (calculateAverage (filterBoolean ((r :: rest).map Reading.temperature)))
        humidity := some (calculateAverage (filterBoolean ((r :: rest).map Reading.humidity)))
        soilMoisture := some (calculateAverage (filterBoolean ((r :: rest).map Reading.soilMoisture)))
        rainfall := ((r :: rest).map (fun x => x.rainfall.getD 0)).sum } := by
  rcases List.eq_nil_or_concat' rest with h0 | ⟨ys, x, rfl⟩
  · exact absurd h0 h
  rw [foldReadings_eq_foldl, List.foldl_append]
  simp only [List.foldl_cons, List.foldl_nil]
  set mid := List.foldl updateRecord (createRecord r) ys with hmid
  have hreads : mid.readings = r :: ys := by
    rw [hmid, foldl_updateRecord_readings]
    simp [createRecord]
  simp only [updateRecord, hreads, List.cons_append]

/-- Witness for C7's amended theorem: two readings with temperatures 20
and 0 fold to a record whose temperature is 20 (the 0 reading is dropped
by the falsy filter). -/
theorem fold_readings_closed_form_witness :
    foldReadings
        [{ temperature := some 20, humidity := some 70, rainfall := some 0, soilMoisture := some 50 },
         { temperature := some 0, humidity := some 70, rainfall := some 0, soilMoisture := some 50 }] =
      some
        { readings :=
            [{ temperature := some 20, humidity := some 70, rainfall := some 0, soilMoisture := some 50 },
             { temperature := some 0, humidity := some 70, rainfall := some 0, soilMoisture := some 50 }]
          temperature := some 20
          humidity := some 70
          soilMoisture := some 50
          rainfall := 0 } := by
  rw [fold_readings_closed_form _ _ (by simp)]
  norm_num [filterBoolean, calculateAverage, List.filterMap]

/-- Claim C7 (counterexample): folding the two readings with temperatures
20 and 0 yields a record temperature of 20, whereas the mean ignoring only
null/missing values is (20 + 0) / 2 = 10 — the aggregator also ignores
ZERO values, refuting the claim. -/
theorem fold_drops_zero_from_mean :
    (foldReadings
        [{ temperature := some 20, humidity := some 70, rainfall := some 0, soilMoisture := some 50 },
         { temperature := some 0, humidity := some 70, rainfall := some 0, soilMoisture := some 50 }]).map
        DailyRecord.temperature = some (some 20) ∧
    specMeanIgnoringNulls
        [some 20, some 0] = 10 ∧
    (20 : ℚ) ≠ 10 := by
  refine ⟨?_, ?_, by norm_num⟩
  · rw [show foldReadings
        [{ temperature := some 20, humidity := some 70, rainfall := some 0, soilMoisture := some 50 },
         { temperature := some 0, humidity := some 70, rainfall := some 0, soilMoisture := some 50 }] =
      some (updateRecord
        (createRecord { temperature := some 20, humidity := some 70, rainfall := some 0, soilMoisture := some 50 })
        { temperature := some 0, humidity := some 70, rainfall := some 0, soilMoisture := some 50 }) from rfl]
    norm_num [updateRecord, createRecord, filterBoolean, calculateAverage, List.filterMap]
  · norm_num [specMeanIgnoringNulls, calculateAverage, List.filterMap]

/-
Embedding of the Diagnosis Reconciler: the CRI-adjustment block inside
`diagnosePlant` (src/unnamed/part_011 lines 168-233, identically
src/unnamed/part_010 lines 149-210).
-/

/-- Image-diagnosis condition labels (persisted strings "Healthy",
"Early Blight", "Late Blight", "Unknown", "Pending"). -/
inductive Condition where
  | Healthy
  | EarlyBlight
  | LateBlight
  | Unknown
  | Pending
deriving DecidableEq

/-- `criLikelihood` derived from the stored CRI (part_011 lines 170-175):
below 50 implies Early Blight, above 50 Late Blight, exactly 50 Healthy. -/
def criLikelihood (cri : ℚ) : Condition :=
  if cri < 50 then Condition.EarlyBlight
  else if cri > 50 then Condition.LateBlight
  else Condition.Healthy

/-- The contradiction test of part_011 lines 180-187. -/
def criContradiction (lik imageDiagnosis : Condition) : Prop :=
  (lik = Condition.EarlyBlight ∧ imageDiagnosis = Condition.LateBlight) ∨
  (lik = Condition.LateBlight ∧ imageDiagnosis = Condition.EarlyBlight) ∨
  (lik ≠ Condition.Healthy ∧ imageDiagnosis = Condition.Healthy) ∨
  (lik = Condition.Healthy ∧ imageDiagnosis ≠ Condition.Healthy)

instance (lik imageDiagnosis : Condition) : Decidable (criContradiction lik imageDiagnosis) := by
  unfold criContradiction
  infer_instance

/-- Embedding of the CRI adjustment (part_011 lines 179-230):
`adjustmentFactor = confidence / 100 * 10`; Early-vs-Late adds it (capped
at 100), Late-vs-Early subtracts it (floored at 1), non-Healthy-vs-Healthy
adds `(50 − cri) * adjustmentFactor * 0.5` clamped to [1,100], and
Healthy-vs-non-Healthy shifts by the factor toward the image's implied
direction.  `Unknown` and non-contradicting conditions leave the CRI
unchanged. -/
def adjustCRIOnDiagnosis (cri : ℚ) (imageDiagnosis : Condition) (confidence : ℚ) : ℚ :=
  if imageDiagnosis = Condition.Unknown then cri
  else if criContradiction (criLikelihood cri) imageDiagnosis then
    if criLikelihood cri = Condition.EarlyBlight ∧ imageDiagnosis = Condition.LateBlight then
      jsMin 100 (cri + confidence / 100 * 10)
    else if criLikelihood cri = Condition.LateBlight ∧ imageDiagnosis = Condition.EarlyBlight then
      jsMax 1 (cri - confidence / 100 * 10)
    else if criLikelihood cri ≠ Condition.Healthy ∧ imageDiagnosis = Condition.Healthy then
      jsMax 1 (jsMin 100 (cri + (50 - cri) * (confidence / 100 * 10) * (0.5 : ℚ)))
    else if criLikelihood cri = Condition.Healthy ∧ imageDiagnosis ≠ Condition.Healthy then
      if imageDiagnosis = Condition.EarlyBlight then jsMax 1 (cri - confidence / 100 * 10)
      else if imageDiagnosis = Condition.LateBlight then jsMin 100 (cri + confidence / 100 * 10)
      else cri
    else cri
  else cri

/-- Claim C8 (code_bug evidence): at stored cri 30 (implying Early Blight)
with image diagnosis Healthy at confidence 80, the code computes
`30 + (50 − 30) * (80/100 * 10) * 0.5 = 110`, clamps to 100 — while the
claimed formula `cri + (50 − cri) * (confidence/100) * 0.5` gives 38.  The
code multiplies the distance to 50 by confidence/100 × 5, not × 0.5, and
overshoots far past 50, contradicting its own comments. -/
theorem reconciler_healthy_adjustment_overshoots :
    adjustCRIOnDiagnosis 30 Condition.Healthy 80 = 100 ∧
    (30 : ℚ) + (50 - 30) * (80 / 100) * (0.5 : ℚ) = 38 ∧
    (100 : ℚ) ≠ 38 := by
  refine ⟨?_, by norm_num, by norm_num⟩
  norm_num [adjustCRIOnDiagnosis, criContradiction, criLikelihood, jsMin, jsMax]
  decide

set_option maxHeartbeats 1600000 in
/-- Claim C10 (confirmed): for every stored CRI in [1,100], every
confidence in [0,100] and every image condition, the adjusted CRI stays in
[1,100] — in every contradiction branch the clamps (and, where no clamp is
applied, the sign of the shift) keep the result in range even where the
unclamped formula would overshoot. -/
theorem adjusted_cri_stays_in_range
    (cri confidence : ℚ) (imageDiagnosis : Condition)
    (h1 : 1 ≤ cri) (h2 : cri ≤ 100) (h3 : 0 ≤ confidence) (h4 : confidence ≤ 100) :
    1 ≤ adjustCRIOnDiagnosis cri imageDiagnosis confidence ∧
    adjustCRIOnDiagnosis cri imageDiagnosis confidence ≤ 100 := by
  have hf : 0 ≤ confidence / 100 * 10 := by positivity
  unfold adjustCRIOnDiagnosis jsMin jsMax
  split_ifs <;> constructor <;> linarith

/-- Witness for C10 at stored cri 40 (Early-Blight likelihood), image
Late Blight, confidence 50: the adjusted CRI 45 lies in [1,100]. -/
theorem adjusted_cri_stays_in_range_witness :
    1 ≤ adjustCRIOnDiagnosis 40 Condition.LateBlight 50 ∧
    adjustCRIOnDiagnosis 40 Condition.LateBlight 50 ≤ 100 :=
  adjusted_cri_stays_in_range 40 50 Condition.LateBlight
    (by norm_num) (by norm_num) (by norm_num) (by norm_num)

/-
Embedding of the Alert Policy's weather-change rule,
`triggerWeatherChangeNotification` (src/utils/notificationTriggers.js
lines 99-162).  The notification payload is abstracted to the list of
crossed metrics mentioned in the combined message; `none` means no
notification was sent.
-/

/-- The four metrics checked by the weather-change rule. -/
inductive Metric where
  | temperature
  | humidity
  | rainfall
  | soilMoisture
deriving DecidableEq

/-- The `percentageChanges.daily` block of a daily record; `none` marks an
absent field. -/
structure DailyChanges where
  temperature : Option ℚ
  humidity : Option ℚ
  rainfall : Option ℚ
  soilMoisture : Option ℚ
deriving DecidableEq

/-- The guard pattern `changes.x && Math.abs(changes.x) >= thr` of the
source: the value must be present and truthy (non-zero) and its absolute
value must reach the threshold. -/
def absCrossed (o : Option ℚ) (thr : ℚ) : Bool :=
  match o with
  | none => false
  | some q => decide (q ≠ 0) && decide (thr ≤ |q|)

/-- The guard pattern `changes.rainfall && changes.rainfall > thr`:
one-directional, only increases beyond the threshold fire. -/
def increaseCrossed (o : Option ℚ) (thr : ℚ) : Bool :=
  match o with
  | none => false
  | some q => decide (q ≠ 0) && decide (thr < q)

/-- The `significantChanges` list built by the source (notificationTriggers.js
lines 107-137), in source order: |Δtemperature| ≥ 15, |Δhumidity| ≥ 20,
Δrainfall > 100 (increases only), |ΔsoilMoisture| ≥ 25. -/
def significantChanges (c : DailyChanges) : List Metric :=
  (if absCrossed c.temperature 15 then [Metric.temperature] else []) ++
  (if absCrossed c.humidity 20 then [Metric.humidity] else []) ++
  (if increaseCrossed c.rainfall 100 then [Metric.rainfall] else []) ++
  (if absCrossed c.soilMoisture 25 then [Metric.soilMoisture] else [])

/-- Embedding of `triggerWeatherChangeNotification`: skips when no farmer
is associated or the daily percentage-change block is absent; otherwise
sends one combined notification exactly when the significant-change list
is non-empty. -/
def triggerWeatherChangeNotification (hasFarmer : Bool) (daily : Option DailyChanges) :
    Option (List Metric) :=
  if hasFarmer = false then none
  else
    match daily with
    | none => none
    | some c =>
        if (significantChanges c).isEmpty then none
        else some (significantChanges c)

/-- Specification-side crossing predicate, written from the words of the
claim: |Δtemperature| ≥ 15%, |Δhumidity| ≥ 20%, Δrainfall > 100%
(increases only), |ΔsoilMoisture| ≥ 25%, on present values. -/
def specCrossed (c : DailyChanges) : Metric → Prop
  | Metric.temperature => ∃ q, c.temperature = some q ∧ 15 ≤ |q|
  | Metric.humidity => ∃ q, c.humidity = some q ∧ 20 ≤ |q|
  | Metric.rainfall => ∃ q, c.rainfall = some q ∧ 100 < q
  | Metric.soilMoisture => ∃ q, c.soilMoisture = some q ∧ 25 ≤ |q|

theorem absCrossed_iff (o : Option ℚ) (thr : ℚ) (hthr : 0 < thr) :
    absCrossed o thr = true ↔ ∃ q, o = some q ∧ thr ≤ |q| := by
  cases o with
  | none => simp [absCrossed]
  | some q =>
    simp only [absCrossed, Bool.and_eq_true, decide_eq_true_eq, Option.some.injEq]
    constructor
    · rintro ⟨h1, h2⟩
      exact ⟨q, rfl, h2⟩
    · rintro ⟨q2, hq, h2⟩
      subst hq
      refine ⟨?_, h2⟩
      intro h0
      rw [h0] at h2
      simp at h2
      linarith

theorem increaseCrossed_iff (o : Option ℚ) (thr : ℚ) (hthr : 0 < thr) :
    increaseCrossed o thr = true ↔ ∃ q, o = some q ∧ thr < q := by
  cases o with
  | none => simp [increaseCrossed]
  | some q =>
    simp only [increaseCrossed, Bool.and_eq_true, decide_eq_true_eq, Option.some.injEq]
    constructor
    · rintro ⟨h1, h2⟩
      exact ⟨q, rfl, h2⟩
    · rintro ⟨q2, hq, h2⟩
      subst hq
      exact ⟨by intro h0; rw [h0] at h2; linarith, h2⟩

theorem mem_ite_singleton {α : Type} (b : Bool) (x m : α) :
    m ∈ (if b then [x] else ([] : List α)) ↔ b = true ∧ m = x := by
  cases b <;> simp

theorem mem_significantChanges (c : DailyChanges) (m : Metric) :
    m ∈ significantChanges c ↔ specCrossed c m := by
  have h15 := absCrossed_iff c.temperature 15 (by norm_num)
  have h20 := absCrossed_iff c.humidity 20 (by norm_num)
  have h100 := increaseCrossed_iff c.rainfall 100 (by norm_num)
  have h25 := absCrossed_iff c.soilMoisture 25 (by norm_num)
  cases m <;>
    simp [significantChanges, specCrossed, List.mem_append, mem_ite_singleton,
      h15, h20, h100, h25]

/-- Claim C9 (confirmed): given an associated farmer and a present daily
percentage-change block, the weather-change rule emits a notification if
and only if at least one daily change crosses its per-metric threshold
(|Δtemperature| ≥ 15 — so exactly 15 fires and 14.9 does not —,
|Δhumidity| ≥ 20, Δrainfall > 100 increases only, |ΔsoilMoisture| ≥ 25),
and the single combined notification lists exactly the crossed metrics. -/
theorem weather_rule_fires_iff_threshold_crossed (c : DailyChanges) :
    ((triggerWeatherChangeNotification true (some c)).isSome = true ↔ ∃ m, specCrossed c m) ∧
    (∀ l m, triggerWeatherChangeNotification true (some c) = some l →
      (m ∈ l ↔ specCrossed c m)) := by
  constructor
  · by_cases hemp : (significantChanges c).isEmpty
    · simp only [triggerWeatherChangeNotification, hemp, if_true]
      simp only [Bool.true_eq_false, if_false, Option.isSome_none]
      rw [List.isEmpty_iff] at hemp
      constructor
      · intro hfalse
        cases hfalse
      · rintro ⟨m, hm⟩
        have := (mem_significantChanges c m).mpr hm
        rw [hemp] at this
        cases this
    · simp only [triggerWeatherChangeNotification, hemp, if_false]
      simp only [Bool.true_eq_false, if_false, Option.isSome_some]
      rw [List.isEmpty_iff] at hemp
      constructor
      · intro _
        obtain ⟨m, hm⟩ := List.exists_mem_of_ne_nil _ hemp
        exact ⟨m, (mem_significantChanges c m).mp hm⟩
      · intro _
        rfl
  · intro l m heq
    by_cases hemp : (significantChanges c).isEmpty
    · simp [triggerWeatherChangeNotification, hemp] at heq
    · simp [triggerWeatherChangeNotification, hemp] at heq
      subst heq
      exact mem_significantChanges c m

/-- Witness for C9 at the boundary: a daily temperature change of exactly
15% fires, and the combined notification lists the temperature metric. -/
theorem weather_rule_fires_iff_threshold_crossed_witness :
    Metric.temperature ∈ [Metric.temperature] ↔
      specCrossed { temperature := some 15, humidity := none, rainfall := none, soilMoisture := none }
        Metric.temperature :=
  (weather_rule_fires_iff_threshold_crossed
      { temperature := some 15, humidity := none, rainfall := none, soilMoisture := none }).2
    [Metric.temperature] Metric.temperature
    (by norm_num [triggerWeatherChangeNotification, significantChanges,
      absCrossed, increaseCrossed])

end BlightCRI
